import Mathlib

/-!
Verification development for the `solar_farm_cap_prediction` repository
(`src/CAMS_data/set_up.py` and `src/CAMS_data/process_cams_data.py`).

The Python pipeline is shallowly embedded: tables (pandas DataFrames) become
lists of rows, raised exceptions become an `Except` error channel, filesystem
writes become explicit values recorded in the result, and `datetime` date
arithmetic is modelled with a proleptic-Gregorian day-number function matching
`datetime.date.toordinal`.  Coordinate values (floats in the source) are
modelled as integers: the code only ever compares them for equality
(`nunique`) and copies them around, so any type with decidable equality is
faithful.
-/

namespace SolarCAMS

/-! ## Calendar model (Python `datetime`)

`validate_output` parses `"YYYY-MM-DD"` strings with `strptime` and computes
`(end_date + timedelta(days=1)) - start_date` in minutes.  We embed dates
structurally (a parsed `datetime` is exactly a valid year/month/day triple)
and give `datetime.date.toordinal`'s proleptic-Gregorian day count. -/

structure Date where
  year : Nat
  month : Nat
  day : Nat
deriving DecidableEq, Repr

def isLeap (y : Nat) : Bool :=
  (y % 4 == 0 && y % 100 != 0) || y % 400 == 0

def daysInMonth (y m : Nat) : Nat :=
  if m == 2 then (if isLeap y then 29 else 28)
  else if m == 4 || m == 6 || m == 9 || m == 11 then 30
  else 31

/-- Days in the months of year `y` strictly before month `m` (months 1-based). -/
def daysBeforeMonth (y : Nat) : Nat → Nat
  | 0 => 0
  | 1 => 0
  | m + 1 => daysBeforeMonth y m + daysInMonth y m

/-- `datetime.date.toordinal`: day number in the proleptic Gregorian calendar,
with 0001-01-01 having ordinal 1. -/
def dayNumber (d : Date) : Nat :=
  365 * (d.year - 1) + (d.year - 1) / 4 - (d.year - 1) / 100 + (d.year - 1) / 400
    + daysBeforeMonth d.year d.month + d.day

/-- A date `strptime` would accept from a well-formed `YYYY-MM-DD` string. -/
def ValidDate (d : Date) : Prop :=
  1 ≤ d.year ∧ 1 ≤ d.month ∧ d.month ≤ 12 ∧ 1 ≤ d.day ∧ d.day ≤ daysInMonth d.year d.month

instance (d : Date) : Decidable (ValidDate d) := by
  unfold ValidDate; infer_instance

/-- `d + datetime.timedelta(days=1)`: the next calendar day. -/
def nextDay (d : Date) : Date :=
  if d.day < daysInMonth d.year d.month then ⟨d.year, d.month, d.day + 1⟩
  else if d.month < 12 then ⟨d.year, d.month + 1, 1⟩
  else ⟨d.year + 1, 1, 1⟩

/-! ## Rows and errors -/

/-- A row of an input location table (the `Latitude` / `Longitude` columns of a
chunk CSV read by `pd.read_csv`). -/
structure Loc where
  lat : Int
  long : Int
deriving DecidableEq, Repr

/-- A row of the combined result table built by `fetch_cams_data`: the inserted
`Latitude` and `Longitude` columns followed by the CAMS payload columns
(abstracted to a single value — only equality and counting matter here). -/
structure Row where
  lat : Int
  long : Int
  payload : Int
deriving DecidableEq, Repr

/-- Python exceptions observable in this module, as structured values.
`raisedString` is a `raise` whose operand is a plain string (as at the
empty-dataframe check in `main`); CPython turns that into
`TypeError: exceptions must derive from BaseException`. -/
inductive PyErr where
  | keyError (key : String)
  | valueError (msg : String)
  | nameError (name : String)
  | attributeError (msg : String)
  | typeError (msg : String)
  | raisedString (msg : String)
  | external (msg : String)
deriving DecidableEq, Repr

/-- Rendering used when an exception is interpolated into a log line. -/
def PyErr.msg : PyErr → String
  | .keyError k => k
  | .valueError m => m
  | .nameError n => "name " ++ n ++ " is not defined"
  | .attributeError m => m
  | .typeError m => m
  | .raisedString m => m
  | .external m => m

/-! ## Name-resolution model for `process_cams_data.py`

Two claims are about Python `NameError`s: the fetch loop's exception handler
interpolates `latitude` and `longitude`, and `main`'s handler calls
`traceback.print_exc()`.  We enumerate, from the source text, the names bound
in each scope (function parameters, assignment targets, loop variables, the
module's imports and definitions, and the builtins the module touches) and
model an f-string / expression as resolving its names left to right, raising
`NameError` at the first unresolved one. -/

/-- Builtins referenced anywhere in `process_cams_data.py`. -/
def pyBuiltins : List String :=
  ["print", "len", "int", "open", "range", "enumerate", "str",
   "Exception", "ValueError", "TypeError", "NameError", "AttributeError"]

/-- Module-level bindings of `process_cams_data.py`: its five imports
(`import pandas as pd` binds only `pd`) and its five function definitions.
`traceback` is never imported. -/
def moduleScope : List String :=
  ["pvlib", "pd", "datetime", "json", "os",
   "load_config", "get_file_to_process", "fetch_cams_data", "validate_output", "main"]

/-- Names bound inside `fetch_cams_data` when its `except` handler runs:
the fourteen parameters, `cams_df`, the loop targets `idx` and `row`, the
call results `data` and `metadata`, and the caught exception `e`. -/
def fetchScope : List String :=
  ["solar_data", "start_date", "end_date", "email", "identifier", "altitude",
   "time_step", "time_ref", "verbose", "integrated", "label", "map_variables",
   "server", "timeout", "cams_df", "idx", "row", "data", "metadata", "e"]
  ++ moduleScope ++ pyBuiltins

/-- The names interpolated, in order, by the handler's f-string
`f"fetch_cams_data: Error processing record {idx} with latitude {latitude}
and longitude {longitude}: {e}"`. -/
def fetchErrMsgNames : List String := ["idx", "latitude", "longitude", "e"]

/-- Evaluating the fetch handler on caught exception `e`: the f-string resolves
its interpolated names left to right; the first unresolved one raises a
`NameError` (masking `e`), otherwise the handler re-raises `e`. -/
def fetchHandlerOutcome (e : PyErr) : PyErr :=
  match fetchErrMsgNames.find? (fun n => ¬ fetchScope.contains n) with
  | some n => .nameError n
  | none => e

/-! ## `fetch_cams_data` (process_cams_data.py lines 66–118)

The external `pvlib.iotools.get_cams` call is an opaque collaborator; it is
modelled as an oracle from the row index and location to either a per-location
payload table or a raised exception.  On success the location's coordinates
are inserted as the first two columns and the rows appended to the running
combined table; the first raised exception runs the handler above and aborts
the whole loop. -/

def fetchGo (oracle : Nat → Loc → Except PyErr (List Int)) :
    Nat → List Loc → Except PyErr (List Row)
  | _, [] => .ok []
  | i, l :: ls =>
    match oracle i l with
    | .error e => .error (fetchHandlerOutcome e)
    | .ok payload =>
      match fetchGo oracle (i + 1) ls with
      | .error e => .error e
      | .ok rest => .ok ((payload.map fun p => ⟨l.lat, l.long, p⟩) ++ rest)

def fetch_cams_data (solar_data : List Loc)
    (oracle : Nat → Loc → Except PyErr (List Int)) : Except PyErr (List Row) :=
  fetchGo oracle 0 solar_data

/-! ## `validate_output` (process_cams_data.py lines 124–178) -/

/-- The dict `time_step_ref = {"1min": 1, "15min": 15, "1h": 60, "1M": None}`.
`some none` is the `"1M": None` entry; `none` is a missing key
(`KeyError` on lookup). -/
def timeStepRef (s : String) : Option (Option Int) :=
  if s = "1min" then some (some 1)
  else if s = "15min" then some (some 15)
  else if s = "1h" then some (some 60)
  else if s = "1M" then some none
  else none

/-- `output_data['Latitude'].nunique()`: number of distinct latitude values. -/
def nuniqueLat (t : List Row) : Nat :=
  (t.map Row.lat).dedup.length

/-- Number of distinct (latitude, longitude) pairs — the spec's notion of
distinct locations.  Not computed by the source; used to state the
latitude-only undercount. -/
def distinctLocations (t : List Row) : Nat :=
  (t.map fun r => (r.lat, r.long)).dedup.length

/-- Lines 144–165 of `validate_output`: the expected-row-count computation.
Monthly branch: `(end.year - start.year)*12 + (end.month - start.month) + 1`
times the distinct-latitude count.  Otherwise `time_delta` is the minutes from
start-of-`start_date` to start-of-(`end_date` + 1 day) —
`((end_date + timedelta(days=1)) - start_date).total_seconds() / 60` — floor
divided by the step's minute value looked up in `time_step_ref` (a missing key
raises `KeyError`), times the distinct-latitude count.  The `"1M": None` entry
can only be reached with `time_step = "1M"`, which the first branch captures,
so the `some none` case is dead code; dividing by `None` would be a
`TypeError`, recorded as such. -/
def computeExpRows (t : List Row) (startD endD : Date) (timeStep : String) :
    Except PyErr Int :=
  let uniq : Int := nuniqueLat t
  if timeStep = "1M" then
    .ok ((((endD.year : Int) - startD.year) * 12
          + ((endD.month : Int) - startD.month) + 1) * uniq)
  else
    match timeStepRef timeStep with
    | none => .error (.keyError timeStep)
    | some none => .error (.typeError "unsupported operand type for floordiv: float and NoneType")
    | some (some k) =>
      let timeDelta : Int := ((dayNumber (nextDay endD) : Int) - (dayNumber startD : Int)) * 1440
      .ok (Int.fdiv timeDelta k * uniq)

/-- The `ValueError` message of line 176, carrying both counts. -/
def mismatchMsg (expected : Int) (found : Nat) : String :=
  "Expected row count: " ++ toString expected ++ ", but found " ++ toString found ++ " rows."

/-- Successful outcome of `validate_output`: the CSV written to the results
folder (path and rows) and the function's return value `True`. -/
structure ValidateOk where
  savedPath : String
  savedRows : List Row
  retVal : Bool
deriving DecidableEq, Repr

/-- `validate_output(output_data, start_date, end_date, time_step,
output_folder)`.  `curDate` stands for `datetime.datetime.now()` formatted
`%Y-%m-%d`.  If the actual row count equals the expected count the table is
written to `output_folder\processed_cams_data_<curDate>.csv` and `True` is
returned; otherwise a `ValueError` carrying both counts is raised and nothing
is written.  The `except` clause only re-raises, so every error propagates
unchanged. -/
def validate_output (output_data : List Row) (startD endD : Date)
    (timeStep : String) (output_folder curDate : String) : Except PyErr ValidateOk :=
  match computeExpRows output_data startD endD timeStep with
  | .error e => .error e
  | .ok expRows =>
    if (output_data.length : Int) = expRows then
      .ok ⟨output_folder ++ "\\processed_cams_data_" ++ curDate ++ ".csv", output_data, true⟩
    else
      .error (.valueError (mismatchMsg expRows output_data.length))

/-! ## `chunk_data` (set_up.py lines 80–106)

The loop `for i, start in enumerate(range(0, len(df), 100))` writes
`df.iloc[start : start + 100]` to `unprocessed_data_<i+1>.csv` (joined onto
the output folder by `os.path.join`; we record the base names) and afterwards
evaluates `i + 1`.  With an empty input the loop body never runs and `i` is
unbound, so the final `print`/`return` raise `NameError('i')`. -/

def chunksAux (size : Nat) : Nat → List α → List (List α)
  | 0, _ => []
  | _, [] => []
  | fuel + 1, l => l.take size :: chunksAux size fuel (l.drop size)

/-- `df.iloc[start : start + chunk_size]` for `start = 0, 100, 200, ...`. -/
def toChunks (size : Nat) (l : List α) : List (List α) :=
  chunksAux size l.length l

def chunk_data (rows : List α) : Except PyErr (List (String × List α) × Nat) :=
  let cs := toChunks 100 rows
  let files := cs.enum.map fun ic =>
    ("unprocessed_data_" ++ toString (ic.1 + 1) ++ ".csv", ic.2)
  if rows.isEmpty then .error (.nameError "i")
  else .ok (files, cs.length)

/-! ## `get_file_to_process` and `main` (process_cams_data.py lines 39–59, 184–261)

`main` is a straight-line sequence inside one `try`.  The environment supplies
what the filesystem and the network would: the config (already loaded — the
claims here assume a complete `config.json`), the unprocessed folder's files in
ascending creation-time order, the CSV reader, the per-location fetch oracle,
and today's date string.  The trace records the observable effects: log lines,
the CSV saved to the results folder, the `os.rename` archival, and how the run
ended. -/

/-- `get_file_to_process(data_folder)` over the folder's files already sorted
by `os.path.getctime` ascending: returns the first, or logs and returns
`None` when the folder is empty. -/
def get_file_to_process (files : List String) : List String × Option String :=
  match files with
  | f :: _ => ([], some f)
  | [] => (["There is no datafile to process."], none)

structure Config where
  sky_type : String
  startDate : Date
  endDate : Date
  timeStep : String
  time_reference : String
  server_name : String
  timeout : Int
  email : String
  unprocessed_folder : String
  processed_folder : String
  results_folder : String

structure Env where
  config : Config
  /-- Files of the unprocessed folder, in ascending creation-time order. -/
  files : List String
  /-- `pd.read_csv` on a datafile path: the location rows it holds. -/
  read_csv : String → List Loc
  /-- The `pvlib.iotools.get_cams` collaborator, per row index and location. -/
  oracle : Nat → Loc → Except PyErr (List Int)
  /-- `datetime.datetime.now().strftime("%Y-%m-%d")`. -/
  curDate : String

/-- Effects and outcome of the body of `main`'s `try` block. -/
structure BodyTrace where
  logs : List String
  saved : Option ValidateOk
  archived : Option (String × String)
  result : Except PyErr Unit
deriving Repr

/-- The `try` body of `main`: pick the oldest pending file; compute
`datafile.split("\\")` — an `AttributeError` when the picker returned `None`;
read the file; fetch; raise on an empty combined table (a plain string is
raised); validate; on success archive the datafile into the processed
folder. -/
def mainBody (env : Env) : BodyTrace :=
  let cfg := env.config
  let picked := get_file_to_process env.files
  match picked.2 with
  | none =>
    ⟨picked.1, none, none,
     .error (.attributeError "NoneType object has no attribute split")⟩
  | some datafile =>
    let processed_file :=
      cfg.processed_folder ++ "\\" ++ (datafile.splitOn "\\").getLastD ""
    let solar_data := env.read_csv datafile
    match fetch_cams_data solar_data env.oracle with
    | .error e => ⟨picked.1, none, none, .error e⟩
    | .ok cams_details =>
      if cams_details.length = 0 then
        ⟨picked.1, none, none,
         .error (.raisedString "fetch_cams_data functions returned an empty dataframe")⟩
      else
        match validate_output cams_details cfg.startDate cfg.endDate cfg.timeStep
            cfg.results_folder env.curDate with
        | .error e => ⟨picked.1, none, none, .error e⟩
        | .ok v => ⟨picked.1, some v, some (datafile, processed_file), .ok ()⟩

/-- How a call of `main` ends: normally, or with an exception escaping it. -/
inductive MainRes where
  | finished
  | raised (e : PyErr)
deriving DecidableEq, Repr

structure MainTrace where
  logs : List String
  saved : Option ValidateOk
  archived : Option (String × String)
  res : MainRes
deriving Repr

/-- Names bound inside `main` when its `except` handler runs. -/
def mainScope : List String :=
  ["config", "sky_type", "start_date", "end_date", "time_step", "time_reference",
   "server_name", "timeout", "email", "unprocessed_folder", "processed_folder",
   "results_folder", "datafile", "file_name", "processed_file", "solar_data",
   "cams_details", "status", "ex"]
  ++ moduleScope ++ pyBuiltins

/-- `main`'s `except` clause: on an exception `ex` it prints
`f"Main: An error occured {ex}"` and then evaluates `traceback.print_exc()`.
`traceback` is resolved against `main`'s scope; when unresolved the handler
itself raises `NameError('traceback')`, which escapes `main`. -/
def applyMainHandler (b : BodyTrace) : MainTrace :=
  match b.result with
  | .ok _ => ⟨b.logs, b.saved, b.archived, .finished⟩
  | .error ex =>
    if mainScope.contains "traceback" then
      ⟨b.logs ++ ["Main: An error occured " ++ ex.msg], b.saved, b.archived, .finished⟩
    else
      ⟨b.logs ++ ["Main: An error occured " ++ ex.msg], b.saved, b.archived,
       .raised (.nameError "traceback")⟩

/-- `main()`: the `try` body wrapped in the top-level exception handler. -/
def mainRun (env : Env) : MainTrace :=
  applyMainHandler (mainBody env)

/-! ## Calendar lemmas -/

theorem daysBeforeMonth_succ (y m : Nat) (h : 1 ≤ m) :
    daysBeforeMonth y (m + 1) = daysBeforeMonth y m + daysInMonth y m := by
  match m, h with
  | Nat.succ k, _ => rfl

theorem daysBeforeMonth_one (y : Nat) : daysBeforeMonth y 1 = 0 := rfl

theorem daysBeforeMonth_twelve (y : Nat) :
    daysBeforeMonth y 12 = if isLeap y then 335 else 334 := by
  cases hL : isLeap y <;> simp [daysBeforeMonth, daysInMonth, hL]

theorem isLeap_iff (y : Nat) :
    isLeap y = true ↔ (y % 4 = 0 ∧ y % 100 ≠ 0) ∨ y % 400 = 0 := by
  simp [isLeap, Bool.or_eq_true, Bool.and_eq_true, beq_iff_eq, bne_iff_ne]

set_option maxHeartbeats 1600000 in
/-- `datetime` day arithmetic: adding one calendar day (with month and year
rollover, leap years included) advances the ordinal day number by exactly 1 —
so the code's `(end_date + timedelta(days=1)) - start_date` measures the
spec's "minutes between start-of-start and start-of-(end + 1 day)". -/
theorem dayNumber_nextDay (d : Date) (h : ValidDate d) :
    dayNumber (nextDay d) = dayNumber d + 1 := by
  obtain ⟨hy, hm1, hm12, hd1, hdm⟩ := h
  unfold nextDay
  split
  · simp only [dayNumber]
    omega
  · rename_i hlt
    have hday : d.day = daysInMonth d.year d.month := le_antisymm hdm (not_lt.1 hlt)
    split
    · rename_i hmlt
      simp only [dayNumber]
      rw [daysBeforeMonth_succ _ _ hm1]
      omega
    · rename_i hmlt
      have hm : d.month = 12 := by omega
      have h31 : daysInMonth d.year 12 = 31 := rfl
      have hday31 : d.day = 31 := by rw [hday, hm, h31]
      simp only [dayNumber, hm, hday31, daysBeforeMonth_twelve, daysBeforeMonth_one,
        Nat.add_sub_cancel]
      cases hL : isLeap d.year with
      | false =>
        have hfacts : ¬ ((d.year % 4 = 0 ∧ d.year % 100 ≠ 0) ∨ d.year % 400 = 0) := by
          rw [← isLeap_iff, hL]; simp
        push_neg at hfacts
        simp only [Bool.false_eq_true, if_false]
        omega
      | true =>
        have hfacts : (d.year % 4 = 0 ∧ d.year % 100 ≠ 0) ∨ d.year % 400 = 0 := by
          rw [← isLeap_iff, hL]
        simp only [if_true]
        omega

/-! ## Chunking lemmas -/

theorem chunksAux_flatten (fuel : Nat) :
    ∀ l : List α, l.length ≤ fuel → (chunksAux 100 fuel l).flatten = l := by
  induction fuel with
  | zero =>
    intro l hl
    have : l = [] := List.length_eq_zero.1 (Nat.le_zero.1 hl)
    subst this; rfl
  | succ n ih =>
    intro l hl
    match l with
    | [] => rfl
    | x :: xs =>
      show (List.take 100 (x :: xs) :: chunksAux 100 n (List.drop 100 (x :: xs))).flatten
          = x :: xs
      rw [List.flatten_cons, ih _ (by simp at hl ⊢; omega), List.take_append_drop]

theorem chunksAux_length (fuel : Nat) :
    ∀ l : List α, l.length ≤ fuel →
      (chunksAux 100 fuel l).length = (l.length + 99) / 100 := by
  induction fuel with
  | zero =>
    intro l hl
    have : l = [] := List.length_eq_zero.1 (Nat.le_zero.1 hl)
    subst this; simp [chunksAux]
  | succ n ih =>
    intro l hl
    match l with
    | [] => simp [chunksAux]
    | x :: xs =>
      show (List.take 100 (x :: xs) :: chunksAux 100 n (List.drop 100 (x :: xs))).length
          = ((x :: xs).length + 99) / 100
      rw [List.length_cons, ih _ (by simp at hl ⊢; omega), List.length_drop]
      simp only [List.length_cons]
      omega

theorem chunksAux_get (fuel : Nat) :
    ∀ (l : List α) (i : Nat), l.length ≤ fuel →
      ∀ h : i < (chunksAux 100 fuel l).length,
        (chunksAux 100 fuel l).get ⟨i, h⟩ = (l.drop (100 * i)).take 100 := by
  induction fuel with
  | zero =>
    intro l i hl h
    have : l = [] := List.length_eq_zero.1 (Nat.le_zero.1 hl)
    subst this; simp [chunksAux] at h
  | succ n ih =>
    intro l i hl h
    match l with
    | [] => simp [chunksAux] at h
    | x :: xs =>
      match i with
      | 0 => simp [chunksAux]
      | j + 1 =>
        have hrec := ih (List.drop 100 (x :: xs)) j (by simp at hl ⊢; omega)
        show (List.take 100 (x :: xs) :: chunksAux 100 n (List.drop 100 (x :: xs))).get
            ⟨j + 1, h⟩ = _
        rw [List.get_cons_succ]
        rw [hrec]
        rw [List.drop_drop]
        congr 2
        ring

/-! ## Distinct-count lemmas (for the latitude-only location count) -/

theorem toFinset_map_eq_image {α β : Type} [DecidableEq α] [DecidableEq β]
    (f : α → β) (l : List α) : (l.map f).toFinset = l.toFinset.image f := by
  induction l with
  | nil => simp
  | cons x xs ih => simp [ih]

theorem dedup_length_eq_card {α : Type} [DecidableEq α] (l : List α) :
    l.dedup.length = l.toFinset.card :=
  (List.card_toFinset l).symm

/-- Counting distinct latitudes undercounts distinct (latitude, longitude)
pairs as soon as one latitude is shared by two different longitudes. -/
theorem nuniqueLat_lt_distinctLocations (t : List Row)
    (h : ∃ r1 ∈ t, ∃ r2 ∈ t, r1.lat = r2.lat ∧ r1.long ≠ r2.long) :
    nuniqueLat t < distinctLocations t := by
  obtain ⟨r1, h1, r2, h2, hlat, hlong⟩ := h
  have hmaps : t.map Row.lat = (t.map fun r => (r.lat, r.long)).map Prod.fst := by
    rw [List.map_map]; rfl
  rw [nuniqueLat, distinctLocations, dedup_length_eq_card, dedup_length_eq_card,
    hmaps, toFinset_map_eq_image]
  set A := (t.map fun r => (r.lat, r.long)).toFinset with hA
  have hp1 : (r1.lat, r1.long) ∈ A := by
    rw [hA, List.mem_toFinset]; exact List.mem_map_of_mem _ h1
  have hp2 : (r2.lat, r2.long) ∈ A := by
    rw [hA, List.mem_toFinset]; exact List.mem_map_of_mem _ h2
  refine lt_of_le_of_ne (Finset.card_image_le) (fun hcard => ?_)
  have hinj := Finset.injOn_of_card_image_eq hcard
  have := hinj hp1 hp2 (by simpa using hlat)
  exact hlong (by simpa [Prod.ext_iff, hlat] using this)

/-! ## Fetch-failure lemmas -/

/-- The fetch handler's f-string interpolates `idx` (bound) then `latitude`
(unbound in every enclosing scope), so evaluating it raises
`NameError('latitude')` whatever the caught exception was. -/
theorem fetchHandlerOutcome_eq (e : PyErr) :
    fetchHandlerOutcome e = .nameError "latitude" := rfl

theorem fetchGo_fails (oracle : Nat → Loc → Except PyErr (List Int)) :
    ∀ (ls : List Loc) (i0 : Nat),
      (∃ j, ∃ hj : j < ls.length, ∃ e, oracle (i0 + j) (ls.get ⟨j, hj⟩) = .error e) →
      fetchGo oracle i0 ls = .error (.nameError "latitude") := by
  intro ls
  induction ls with
  | nil =>
    intro i0 hfail
    obtain ⟨j, hj, _⟩ := hfail
    exact absurd hj (by simp)
  | cons l tl ih =>
    intro i0 hfail
    show (match oracle i0 l with
      | .error e => .error (fetchHandlerOutcome e)
      | .ok payload =>
        match fetchGo oracle (i0 + 1) tl with
        | .error e => .error e
        | .ok rest => .ok ((payload.map fun p => ⟨l.lat, l.long, p⟩) ++ rest))
      = Except.error (.nameError "latitude")
    obtain ⟨j, hj, e, hje⟩ := hfail
    cases horacle : oracle i0 l with
    | error e0 => simp [fetchHandlerOutcome_eq]
    | ok payload =>
      match j with
      | 0 =>
        rw [Nat.add_zero] at hje
        simp only [List.get] at hje
        rw [horacle] at hje
        exact absurd hje (by simp)
      | Nat.succ j0 =>
        have hrec : fetchGo oracle (i0 + 1) tl = .error (.nameError "latitude") := by
          refine ih (i0 + 1) ⟨j0, by simpa using Nat.lt_of_succ_lt_succ hj, e, ?_⟩
          rw [show i0 + 1 + j0 = i0 + (j0 + 1) by omega]
          exact hje
        simp [hrec]

theorem toChunks_flatten (l : List α) : (toChunks 100 l).flatten = l :=
  chunksAux_flatten l.length l (le_refl _)

theorem toChunks_length (l : List α) : (toChunks 100 l).length = (l.length + 99) / 100 :=
  chunksAux_length l.length l (le_refl _)

theorem toChunks_get (l : List α) (i : Nat) (h : i < (toChunks 100 l).length) :
    (toChunks 100 l).get ⟨i, h⟩ = (l.drop (100 * i)).take 100 :=
  chunksAux_get l.length l i (le_refl _) h

/-! ## Claim theorems -/

/-- C1: for every valid `start_date ≤ end_date` and every time step among
`1min`, `15min`, `1h` (minute values 1, 15, 60), `validate_output`'s expected
row count is the number of distinct locations `N` (the table's distinct
latitudes, which under `hN` equal its distinct (latitude, longitude) pairs)
times `floor(minutes between start-of-start_date and
start-of-(end_date + 1 day) / step minutes)`; in particular, 2 locations with
`start_date = end_date = 2023-01-01` and step `1h` give 48. -/
theorem C1_subdaily_expected_rows (t : List Row) (s e : Date) (step : String) (m : Int)
    (_hs : ValidDate s) (he : ValidDate e) (_hle : dayNumber s ≤ dayNumber e)
    (hstep : (step = "1min" ∧ m = 1) ∨ (step = "15min" ∧ m = 15) ∨ (step = "1h" ∧ m = 60))
    (hN : distinctLocations t = nuniqueLat t) :
    computeExpRows t s e step =
      .ok ((distinctLocations t : Int) *
        Int.fdiv (((dayNumber e : Int) + 1 - (dayNumber s : Int)) * 1440) m) ∧
    computeExpRows [⟨10, 20, 0⟩, ⟨30, 40, 1⟩] ⟨2023, 1, 1⟩ ⟨2023, 1, 1⟩ "1h" = .ok 48 := by
  constructor
  · have hnd : (dayNumber (nextDay e) : Int) = (dayNumber e : Int) + 1 := by
      exact_mod_cast dayNumber_nextDay e he
    rcases hstep with ⟨h1, h2⟩ | ⟨h1, h2⟩ | ⟨h1, h2⟩ <;> subst h1 <;> subst h2 <;>
      simp only [computeExpRows, timeStepRef, hnd, hN] <;>
      norm_num <;>
      exact congrArg Except.ok (mul_comm _ _)
  · rfl

/-- C1 witness: the general theorem applied at the example scenario of the
claim (2 distinct locations, 2023-01-01 to 2023-01-01, step 1h). -/
theorem C1_witness :
    ValidDate ⟨2023, 1, 1⟩ ∧
    computeExpRows [⟨10, 20, 0⟩, ⟨30, 40, 1⟩] ⟨2023, 1, 1⟩ ⟨2023, 1, 1⟩ "1h" = .ok 48 := by
  refine ⟨by decide, ?_⟩
  have h := C1_subdaily_expected_rows [⟨10, 20, 0⟩, ⟨30, 40, 1⟩] ⟨2023, 1, 1⟩ ⟨2023, 1, 1⟩
    "1h" 60 (by decide) (by decide) (by decide) (Or.inr (Or.inr ⟨rfl, rfl⟩)) (by decide)
  rw [h.1]; rfl

/-- C3: for every pair of valid dates and `time_step = "1M"`, the expected
row count is `((end.year - start.year) * 12 + (end.month - start.month) + 1)`
times the number of distinct locations; in particular, 3 locations with
start 2023-01-15 and end 2023-03-15 give 9. -/
theorem C3_monthly_expected_rows (t : List Row) (s e : Date)
    (_hs : ValidDate s) (_he : ValidDate e)
    (hN : distinctLocations t = nuniqueLat t) :
    computeExpRows t s e "1M" =
      .ok ((((e.year : Int) - s.year) * 12 + ((e.month : Int) - s.month) + 1) *
        (distinctLocations t : Int)) ∧
    computeExpRows [⟨1, 1, 0⟩, ⟨2, 2, 0⟩, ⟨3, 3, 0⟩] ⟨2023, 1, 15⟩ ⟨2023, 3, 15⟩ "1M"
      = .ok 9 := by
  constructor
  · simp only [computeExpRows, hN]
    norm_num
  · rfl

/-- C3 witness: the general theorem applied at the example scenario of the
claim (3 distinct locations, 2023-01-15 to 2023-03-15, step 1M). -/
theorem C3_witness :
    ValidDate ⟨2023, 1, 15⟩ ∧
    computeExpRows [⟨1, 1, 0⟩, ⟨2, 2, 0⟩, ⟨3, 3, 0⟩] ⟨2023, 1, 15⟩ ⟨2023, 3, 15⟩ "1M"
      = .ok 9 := by
  refine ⟨by decide, ?_⟩
  have h := C3_monthly_expected_rows [⟨1, 1, 0⟩, ⟨2, 2, 0⟩, ⟨3, 3, 0⟩]
    ⟨2023, 1, 15⟩ ⟨2023, 3, 15⟩ (by decide) (by decide) (by decide)
  rw [h.1]; rfl

/-- C5: the minute mapping holds exactly the keys `1min`, `15min`, `1h`, `1M`,
so calling `validate_output` with `time_step = "1d"` fails with the
`KeyError('1d')` from the mapping lookup — never with the row-count
`ValueError` — whatever the table and dates are. -/
theorem C5_one_day_key_lookup (t : List Row) (s e : Date) (folder curDate : String) :
    timeStepRef "1d" = none ∧
    (∀ x, (timeStepRef x).isSome ↔ x ∈ ["1min", "15min", "1h", "1M"]) ∧
    validate_output t s e "1d" folder curDate = .error (.keyError "1d") := by
  refine ⟨rfl, ?_, ?_⟩
  · intro x
    unfold timeStepRef
    split_ifs <;> simp_all
  · rfl

/-- C4: whenever the expected-count computation succeeds with value `n`,
`validate_output` saves the table to the results folder and returns `True`
exactly when the actual row count equals `n`; on a differing count it raises
the `ValueError` carrying both counts.  In the embedding a save happens only
inside the `.ok` outcome, so an error outcome writes nothing to the results
folder. -/
theorem C4_validate_success_iff (t : List Row) (s e : Date)
    (step folder curDate : String) (n : Int)
    (h : computeExpRows t s e step = .ok n) :
    ((t.length : Int) = n →
      validate_output t s e step folder curDate =
        .ok ⟨folder ++ "\\processed_cams_data_" ++ curDate ++ ".csv", t, true⟩) ∧
    ((t.length : Int) ≠ n →
      validate_output t s e step folder curDate =
        .error (.valueError (mismatchMsg n t.length))) := by
  unfold validate_output
  rw [h]
  constructor
  · intro hlen
    show (if (t.length : Int) = n then
        Except.ok (⟨folder ++ "\\processed_cams_data_" ++ curDate ++ ".csv", t, true⟩ : ValidateOk)
      else Except.error (PyErr.valueError (mismatchMsg n t.length))) = _
    rw [if_pos hlen]
  · intro hlen
    show (if (t.length : Int) = n then
        Except.ok (⟨folder ++ "\\processed_cams_data_" ++ curDate ++ ".csv", t, true⟩ : ValidateOk)
      else Except.error (PyErr.valueError (mismatchMsg n t.length))) = _
    rw [if_neg hlen]

/-- C4 witness: a 1-row table against an expected count of 24 raises the
mismatch `ValueError` with both counts, and nothing is saved. -/
theorem C4_witness :
    computeExpRows [⟨0, 0, 0⟩] ⟨2023, 1, 1⟩ ⟨2023, 1, 1⟩ "1h" = .ok 24 ∧
    validate_output [⟨0, 0, 0⟩] ⟨2023, 1, 1⟩ ⟨2023, 1, 1⟩ "1h" "results" "2025-10-12" =
      .error (.valueError (mismatchMsg 24 1)) := by
  refine ⟨rfl, ?_⟩
  exact (C4_validate_success_iff [⟨0, 0, 0⟩] ⟨2023, 1, 1⟩ ⟨2023, 1, 1⟩ "1h" "results"
    "2025-10-12" 24 rfl).2 (by decide)

set_option maxRecDepth 8000 in
/-- C2: for a nonempty input table, `chunk_data` produces `⌈N/100⌉` chunk
files named `unprocessed_data_<i>.csv` with `i` counted from 1, holding the
contiguous 100-row blocks of the input in original order (chunk `i` is rows
`100·i .. 100·i+99`, so every chunk has 100 rows except a possibly smaller
last one), returns that chunk count, and concatenating the chunks in index
order reproduces the input with nothing duplicated or dropped; a 250-row
input yields 3 chunks of sizes 100, 100, 50. -/
theorem C2_chunk_data_partition {α : Type} (rows : List α) (hN : 1 ≤ rows.length) :
    (∃ files : List (String × List α),
      chunk_data rows = .ok (files, (rows.length + 99) / 100) ∧
      (files.map Prod.snd).flatten = rows ∧
      files.length = (rows.length + 99) / 100 ∧
      ∀ i, ∀ hi : i < files.length,
        (files.get ⟨i, hi⟩).1 = "unprocessed_data_" ++ toString (i + 1) ++ ".csv" ∧
        (files.get ⟨i, hi⟩).2 = (rows.drop (100 * i)).take 100 ∧
        ((files.get ⟨i, hi⟩).2).length = min 100 (rows.length - 100 * i)) ∧
    (toChunks 100 (List.range 250)).map List.length = [100, 100, 50] := by
  constructor
  · refine ⟨((toChunks 100 rows).enum.map fun ic =>
      ("unprocessed_data_" ++ toString (ic.1 + 1) ++ ".csv", ic.2)), ?_, ?_, ?_, ?_⟩
    · unfold chunk_data
      rw [if_neg (by simp [List.isEmpty_iff]; intro hrows; rw [hrows] at hN; simp at hN)]
      rw [toChunks_length]
    · rw [List.map_map]
      have hcomp : (Prod.snd ∘ fun ic : Nat × List α =>
          ("unprocessed_data_" ++ toString (ic.1 + 1) ++ ".csv", ic.2)) = Prod.snd := rfl
      rw [hcomp, List.enum_map_snd]
      exact toChunks_flatten rows
    · rw [List.length_map, List.enum_length]
      exact toChunks_length rows
    · intro i hi0
      have hi : i < (toChunks 100 rows).length := by
        simpa [List.enum_length] using hi0
      have hget : ((toChunks 100 rows).enum.map fun ic =>
          ("unprocessed_data_" ++ toString (ic.1 + 1) ++ ".csv", ic.2)).get ⟨i, hi0⟩ =
          ("unprocessed_data_" ++ toString (i + 1) ++ ".csv",
            (toChunks 100 rows).get ⟨i, hi⟩) := by
        rw [List.get_eq_getElem, List.getElem_map, List.getElem_enum]
        rfl
      rw [hget]
      have hchunk := toChunks_get rows i hi
      have hlen2 : ((toChunks 100 rows).get ⟨i, hi⟩).length
          = min 100 (rows.length - 100 * i) := by
        rw [hchunk, List.length_take, List.length_drop]
      exact ⟨rfl, hchunk, hlen2⟩
  · decide

/-- C2 witness: the theorem applied to the 250-row example of the claim,
giving exactly 3 chunks. -/
theorem C2_witness :
    1 ≤ (List.range 250).length ∧
    ∃ files : List (String × List Nat), chunk_data (List.range 250) = .ok (files, 3) := by
  refine ⟨by simp, ?_⟩
  obtain ⟨⟨files, h1, _⟩, _⟩ := C2_chunk_data_partition (List.range 250) (by simp)
  exact ⟨files, by simpa using h1⟩

/-- C6: `validate_output` counts locations by distinct latitude only — its
expected count is invariant under any change of the longitude (or payload)
columns that keeps the latitude column — and for every table containing two
rows with equal latitude but different longitudes, that latitude count is
strictly smaller than the number of distinct (latitude, longitude) pairs. -/
theorem C6_latitude_only_count :
    (∀ (t1 t2 : List Row) (s e : Date) (step : String),
        t1.map Row.lat = t2.map Row.lat →
        computeExpRows t1 s e step = computeExpRows t2 s e step) ∧
    (∀ t : List Row,
        (∃ r1 ∈ t, ∃ r2 ∈ t, r1.lat = r2.lat ∧ r1.long ≠ r2.long) →
        nuniqueLat t < distinctLocations t) := by
  constructor
  · intro t1 t2 s e step hmap
    have huniq : nuniqueLat t1 = nuniqueLat t2 := by
      rw [nuniqueLat, nuniqueLat, hmap]
    simp only [computeExpRows, huniq]
  · exact nuniqueLat_lt_distinctLocations

/-- C6 witness: two rows sharing latitude 5 with longitudes 1 and 2 — one
distinct latitude against two distinct location pairs. -/
theorem C6_witness :
    nuniqueLat [⟨5, 1, 0⟩, ⟨5, 2, 0⟩] < distinctLocations [⟨5, 1, 0⟩, ⟨5, 2, 0⟩] :=
  C6_latitude_only_count.2 _
    ⟨⟨5, 1, 0⟩, by decide, ⟨5, 2, 0⟩, by decide, rfl, by decide⟩

/-- C7: if the external fetch primitive raises for any location of the batch,
`fetch_cams_data` returns no partial result and retries nothing — and since
`latitude` and `longitude` are bound in no scope enclosing the handler's
f-string, the handler itself raises `NameError('latitude')`, masking the
original exception whatever it was. -/
theorem C7_fetch_failure_masked (locs : List Loc)
    (oracle : Nat → Loc → Except PyErr (List Int))
    (hfail : ∃ i, ∃ hi : i < locs.length, ∃ e, oracle i (locs.get ⟨i, hi⟩) = .error e) :
    fetchScope.contains "latitude" = false ∧
    fetchScope.contains "longitude" = false ∧
    fetch_cams_data locs oracle = .error (.nameError "latitude") := by
  refine ⟨rfl, rfl, ?_⟩
  refine fetchGo_fails oracle locs 0 ?_
  obtain ⟨i, hi, e, he⟩ := hfail
  exact ⟨i, hi, e, by simpa using he⟩

/-- C7 witness: a single location whose fetch raises an HTTP error; the batch
aborts with the masking `NameError('latitude')`. -/
theorem C7_witness :
    fetch_cams_data [⟨1, 2⟩] (fun _ _ => .error (.external "HTTP 500")) =
      .error (.nameError "latitude") :=
  (C7_fetch_failure_masked [⟨1, 2⟩] (fun _ _ => .error (.external "HTTP 500"))
    ⟨0, by decide, .external "HTTP 500", rfl⟩).2.2

/-- A complete configuration, as `set_up.py` writes it, used by the concrete
orchestrator runs below. -/
def cfgExample : Config :=
  ⟨"mcclear", ⟨2023, 1, 1⟩, ⟨2023, 1, 1⟩, "1h", "UT", "api.soda-solardata.com", 30,
   "user@example.com", "unprocessed", "processed", "results"⟩

/-- An orchestrator environment whose unprocessed folder holds no files. -/
def envNoFiles : Env :=
  ⟨cfgExample, [], fun _ => [], fun _ _ => .ok [], "2025-10-12"⟩

/-- An orchestrator environment with one pending chunk file that contains no
location rows, so the fetch loop runs zero iterations and returns an empty
combined table. -/
def envEmptyChunk : Env :=
  ⟨cfgExample, ["unprocessed\\unprocessed_data_1.csv"], fun _ => [],
   fun _ _ => .ok [], "2025-10-12"⟩

/-- C8 (defect witness): with an empty unprocessed folder the picker logs and
returns the `None` sentinel, and no fetch, validation or archiving happens —
but `main` does not complete as a non-fatal no-op: `datafile.split("\\")` is
evaluated on `None` before the no-file check, raising `AttributeError`, and
the top-level handler then terminates the run with `NameError('traceback')`. -/
theorem C8_no_file_crash :
    (get_file_to_process []).2 = none ∧
    (get_file_to_process []).1 = ["There is no datafile to process."] ∧
    (mainBody envNoFiles).result =
      .error (.attributeError "NoneType object has no attribute split") ∧
    (mainRun envNoFiles).saved = none ∧
    (mainRun envNoFiles).archived = none ∧
    (mainRun envNoFiles).res = .raised (.nameError "traceback") :=
  ⟨rfl, rfl, rfl, rfl, rfl, rfl⟩

/-- C9: whenever a pending file exists and the fetch returns a combined table
with zero rows, `main`'s body stops at the empty-result check (raising there),
and neither a validation save nor an archival rename happens; the run then
terminates with an exception. -/
theorem C9_empty_result_fatal (env : Env) (df : String) (rest : List String)
    (hfiles : env.files = df :: rest)
    (hempty : fetch_cams_data (env.read_csv df) env.oracle = .ok []) :
    (mainBody env).result =
      .error (.raisedString "fetch_cams_data functions returned an empty dataframe") ∧
    (mainBody env).saved = none ∧
    (mainBody env).archived = none ∧
    (mainRun env).res = .raised (.nameError "traceback") := by
  have hbody : mainBody env =
      ⟨[], none, none,
       .error (.raisedString "fetch_cams_data functions returned an empty dataframe")⟩ := by
    unfold mainBody get_file_to_process
    rw [hfiles]
    simp [hempty]
  refine ⟨by rw [hbody], by rw [hbody], by rw [hbody], ?_⟩
  unfold mainRun
  rw [hbody]
  rfl

/-- C9 witness: a pending chunk file with zero location rows makes the fetch
return an empty table and the run fail at the empty-result check. -/
theorem C9_witness :
    (mainBody envEmptyChunk).result =
      .error (.raisedString "fetch_cams_data functions returned an empty dataframe") ∧
    (mainRun envEmptyChunk).res = .raised (.nameError "traceback") := by
  have h := C9_empty_result_fatal envEmptyChunk "unprocessed\\unprocessed_data_1.csv" []
    rfl rfl
  exact ⟨h.1, h.2.2.2⟩

/-- C10: `traceback` is bound neither at module level nor in `main`'s scope,
so for every exception reaching `main`'s top-level handler, the handler first
prints its error message and then its `traceback.print_exc()` call raises
`NameError('traceback')`, which escapes `main` instead of the contained
error path. -/
theorem C10_traceback_unbound (env : Env) (ex : PyErr)
    (h : (mainBody env).result = .error ex) :
    moduleScope.contains "traceback" = false ∧
    mainScope.contains "traceback" = false ∧
    (mainRun env).res = .raised (.nameError "traceback") ∧
    (mainRun env).logs = (mainBody env).logs ++ ["Main: An error occured " ++ ex.msg] := by
  have hrun : mainRun env =
      ⟨(mainBody env).logs ++ ["Main: An error occured " ++ ex.msg],
       (mainBody env).saved, (mainBody env).archived, .raised (.nameError "traceback")⟩ := by
    unfold mainRun applyMainHandler
    rw [h]
    rfl
  exact ⟨rfl, rfl, by rw [hrun], by rw [hrun]⟩

/-- C10 witness: the empty-folder run's `AttributeError` reaches the handler,
which terminates `main` with `NameError('traceback')` after printing the
message. -/
theorem C10_witness :
    (mainRun envNoFiles).res = .raised (.nameError "traceback") ∧
    (mainRun envNoFiles).logs =
      ["There is no datafile to process.",
       "Main: An error occured NoneType object has no attribute split"] := by
  have h := C10_traceback_unbound envNoFiles
    (.attributeError "NoneType object has no attribute split") rfl
  exact ⟨h.2.2.1, h.2.2.2⟩

end SolarCAMS
